import Mathlib

/-!
Verification of the LeadRing polling core: a per-connection polling session
that establishes a baseline row count over an external spreadsheet, then
periodically re-reads it and pushes the delta of newly appended rows to the
client. The definitions below are a shallow embedding of the three
near-duplicate server implementations (the socket.io variant, the ws variant
in server.ts, and the Hono variant), faithful to their guard conditions,
message payloads, registry bookkeeping and timer semantics.
-/

namespace LeadRing

/-- A row of the spreadsheet: a list of cell strings (range A:Z). -/
abbrev Row := List String

/-- JSON field values as they appear in the emitted payloads. -/
inductive JVal where
  | jstr (s : String)
  | jnum (n : Int)
  | jrows (rows : List Row)
deriving DecidableEq, Repr

/-- Messages emitted by the socket.io variant: socket.emit of the event
new-leads carries the batch and the new total; monitoring-error carries a
message string. -/
inductive IoMsg where
  | newLeads (leads : List Row) (total : Nat)
  | monitoringError (message : String)
deriving DecidableEq, Repr

/-- Messages sent by the ws variant (server.ts): the new-leads payload has no
total field. -/
inductive WsMsg where
  | newLeads (leads : List Row)
  | error (message : String)
deriving DecidableEq, Repr

/-- JavaScript Array.prototype.slice with one argument: a nonnegative start
drops that many elements; a negative start counts from the end, clamped at 0. -/
def jsSlice (xs : List Row) (start : Int) : List Row :=
  if 0 ≤ start then xs.drop start.toNat
  else xs.drop (xs.length - (-start).toNat)

/-- checkLeads: calls the sheets API; a thrown error (apiResult = none) is
caught and returns null (modelled as none); a successful response returns
response.data.values, defaulted to the empty list when values is absent. -/
def checkLeads (apiResult : Option (Option (List Row))) : Option (List Row) :=
  match apiResult with
  | none => none
  | some values => some (values.getD [])

/-- Result of one invocation of the setInterval callback: the updated
lastRowCount, the messages emitted, and whether the interval is still live
(false exactly when the callback executed clearInterval). -/
structure TickOut where
  lastRowCount : Int
  msgs : List IoMsg
  active : Bool
deriving DecidableEq, Repr

/-- The setInterval callback body of the socket.io variant: on a successful
read it emits the slice of rows past lastRowCount when the count grew (guarded
by lastRowCount not being the -1 sentinel), then updates lastRowCount
unconditionally; on a failed read it emits one error and clears the interval. -/
def tick (lastRowCount : Int) (readResult : Option (List Row)) : TickOut :=
  match readResult with
  | some rows =>
      if lastRowCount ≠ -1 ∧ (rows.length : Int) > lastRowCount then
        ⟨(rows.length : Int),
         [IoMsg.newLeads (jsSlice rows lastRowCount) rows.length], true⟩
      else
        ⟨(rows.length : Int), [], true⟩
  | none =>
      ⟨lastRowCount,
       [IoMsg.monitoringError "Lost connection to spreadsheet."], false⟩

/-- Accumulated result of running the interval over a list of read results. -/
structure RunOut where
  msgs : List IoMsg
  lastRowCount : Int
  active : Bool
deriving DecidableEq, Repr

/-- Run the interval callback over successive read results, stopping as soon
as a callback clears the interval (reads listed after a failure never occur). -/
def runTicks (lrc : Int) : List (Option (List Row)) → RunOut
  | [] => ⟨[], lrc, true⟩
  | r :: rs =>
      let t := tick lrc r
      if t.active then
        let out := runTicks t.lastRowCount rs
        ⟨t.msgs ++ out.msgs, out.lastRowCount, out.active⟩
      else
        ⟨t.msgs, t.lastRowCount, false⟩

/-- The emission the spec describes: at each successful read, when the row
count exceeds the previous count, one batch holding exactly the rows at
indices at or past the previous count, with the new total; nothing otherwise. -/
def specEmits : Nat → List (List Row) → List IoMsg
  | _, [] => []
  | prev, rows :: rest =>
      (if prev < rows.length
       then [IoMsg.newLeads (rows.drop prev) rows.length] else [])
        ++ specEmits rows.length rest

/-- The row count after a sequence of successful reads. -/
def finalCount : Nat → List (List Row) → Nat
  | prev, [] => prev
  | _, rows :: rest => finalCount rows.length rest

/-- Row counts along a sequence of reads are non-decreasing starting from a
previous count. -/
def countsMono : Nat → List (List Row) → Bool
  | _, [] => true
  | prev, rows :: rest => decide (prev ≤ rows.length) && countsMono rows.length rest

/-- The value of lastRowCount observed at entry to each tick that actually
executes (the trace stops when the interval is cleared). -/
def lrcTrace (lrc : Int) : List (Option (List Row)) → List Int
  | [] => []
  | r :: rs =>
      lrc ::
        (let t := tick lrc r
         if t.active then lrcTrace t.lastRowCount rs else [])

/-- Outcome of the start-monitoring handler up to the creation of the
interval: how many reads of the source were attempted, the messages emitted,
the final value of the local lastRowCount variable, and whether the interval
timer was created. -/
structure StartOutcome where
  readsAttempted : Nat
  msgs : List IoMsg
  lastRowCount : Int
  timerCreated : Bool
deriving DecidableEq, Repr

/-- The socket.io start-monitoring handler: rejects an empty spreadsheetId or
missing session tokens before any read; otherwise performs the baseline read;
on baseline failure emits one error and never creates the timer; on success
sets lastRowCount and creates the interval. -/
def ioStartMonitoring (spreadsheetId : String) (hasTokens : Bool)
    (baselineRead : Option (List Row)) : StartOutcome :=
  if spreadsheetId = "" ∨ hasTokens = false then
    ⟨0, [], -1, false⟩
  else
    match baselineRead with
    | none =>
        ⟨1, [IoMsg.monitoringError
          "Failed to access spreadsheet. Check the ID and permissions."], -1, false⟩
    | some initialRows => ⟨1, [], (initialRows.length : Int), true⟩

/-- Outcome of the ws (server.ts) start-monitoring handler. -/
structure WsStartOutcome where
  readsAttempted : Nat
  msgs : List WsMsg
  lastRowCount : Int
  timerCreated : Bool
deriving DecidableEq, Repr

/-- The ws (server.ts) start-monitoring handler: it checks only that session
tokens are present; the spreadsheetId is never validated, so the baseline read
is attempted even when spreadsheetId is empty. -/
def wsStartMonitoring (_spreadsheetId : String) (hasTokens : Bool)
    (baselineRead : Option (List Row)) : WsStartOutcome :=
  if hasTokens = false then
    ⟨0, [WsMsg.error "Authentication required. Please log in again."], -1, false⟩
  else
    match baselineRead with
    | none =>
        ⟨1, [WsMsg.error
          "Failed to access spreadsheet. Ensure you have permissions."], -1, false⟩
    | some initialRows => ⟨1, [], (initialRows.length : Int), true⟩

/-- The JSON field list of the socket.io new-leads payload:
socket.emit with leads and total. -/
def ioNewLeadsFields (leads : List Row) (total : Nat) : List (String × JVal) :=
  [("leads", JVal.jrows leads), ("total", JVal.jnum total)]

/-- The JSON field list of each socket.io message payload. -/
def msgFields : IoMsg → List (String × JVal)
  | IoMsg.newLeads leads total => ioNewLeadsFields leads total
  | IoMsg.monitoringError m => [("message", JVal.jstr m)]

/-- The JSON field list of each ws (server.ts) message: the new-leads object
carries type and leads only, with no total field. -/
def wsMsgFields : WsMsg → List (String × JVal)
  | WsMsg.newLeads leads => [("type", JVal.jstr "new-leads"), ("leads", JVal.jrows leads)]
  | WsMsg.error m => [("type", JVal.jstr "error"), ("message", JVal.jstr m)]

/-- Result of one invocation of the ws (server.ts) setInterval callback. -/
structure WsTickOut where
  lastRowCount : Int
  msgs : List WsMsg
  active : Bool
deriving DecidableEq, Repr

/-- The setInterval callback body of the ws variant (server.ts): identical
diff logic, but the new-leads message omits the total. -/
def wsTick (lastRowCount : Int) (readResult : Option (List Row)) : WsTickOut :=
  match readResult with
  | some rows =>
      if lastRowCount ≠ -1 ∧ (rows.length : Int) > lastRowCount then
        ⟨(rows.length : Int), [WsMsg.newLeads (jsSlice rows lastRowCount)], true⟩
      else
        ⟨(rows.length : Int), [], true⟩
  | none =>
      ⟨lastRowCount, [WsMsg.error "Lost connection to spreadsheet."], false⟩

/-- A live interval of the socket.io variant: its handle, the spreadsheetId
captured in its closure, and its closed-over lastRowCount. -/
structure Monitor where
  handle : Nat
  spreadsheetId : String
  lastRowCount : Int
deriving DecidableEq, Repr

/-- Server-side registry state of the socket.io variant: the activeMonitors
map from socket id to interval handle, the set of intervals that have not been
cleared, and a counter supplying fresh handles. -/
structure RegState where
  activeMonitors : List (String × Nat)
  intervals : List Monitor
  nextHandle : Nat
deriving DecidableEq, Repr

/-- Map.set semantics over an association list: replace the value when the key
is present, append otherwise. -/
def mapSet (m : List (String × Nat)) (k : String) (v : Nat) : List (String × Nat) :=
  if m.any (fun p => p.1 = k) then
    m.map (fun p => if p.1 = k then (k, v) else p)
  else m ++ [(k, v)]

/-- Map.get semantics over an association list. -/
def mapGet (m : List (String × Nat)) (k : String) : Option Nat :=
  (m.find? (fun p => p.1 = k)).map Prod.snd

/-- Map.delete semantics over an association list. -/
def mapDelete (m : List (String × Nat)) (k : String) : List (String × Nat) :=
  m.filter (fun p => p.1 ≠ k)

/-- The tail of the socket.io start-monitoring handler after a successful
baseline read of baselineCount rows: setInterval creates a fresh interval and
activeMonitors.set stores its handle for the socket. The handler never clears
an interval already registered for the socket. -/
def regStart (s : RegState) (sockId sid : String) (baselineCount : Nat) : RegState :=
  { activeMonitors := mapSet s.activeMonitors sockId s.nextHandle,
    intervals := s.intervals ++ [⟨s.nextHandle, sid, (baselineCount : Int)⟩],
    nextHandle := s.nextHandle + 1 }

/-- The stop-monitoring handler: look up the interval handle stored for the
socket, clear that interval and delete the map entry; no-op when absent. -/
def regStop (s : RegState) (sockId : String) : RegState :=
  match mapGet s.activeMonitors sockId with
  | some h =>
      { s with
        activeMonitors := mapDelete s.activeMonitors sockId,
        intervals := s.intervals.filter (fun m => m.handle ≠ h) }
  | none => s

/-- Messages emitted when the interval with the given handle fires with a
successful read: the callback closure emits leads for the spreadsheetId it
captured; a cleared interval never fires. -/
def fireEmits (s : RegState) (h : Nat) (rows : List Row) : List (String × IoMsg) :=
  match s.intervals.find? (fun m => m.handle = h) with
  | some m => (tick m.lastRowCount (some rows)).msgs.map (fun msg => (m.spreadsheetId, msg))
  | none => []

/-- State for the cancellation race: whether the interval is still scheduled,
how many reads are in flight, the shared lastRowCount, and the messages
emitted so far. -/
structure RaceState where
  intervalLive : Bool
  inFlight : Nat
  lastRowCount : Int
  emitted : List IoMsg
deriving DecidableEq, Repr

/-- Events in the cancellation race: the interval fires and starts a read; a
stop or disconnect handler runs clearInterval; an in-flight read resolves and
the rest of the callback body runs. -/
inductive Ev where
  | tickFire
  | stop
  | resolve (readResult : Option (List Row))
deriving DecidableEq, Repr

/-- Interleaving semantics of the socket.io session. The interval only fires
while scheduled; clearInterval stops future firings but does not affect a read
already in flight; when a read resolves the callback body runs in full,
emitting and updating lastRowCount with no check that the interval is still
scheduled (the source has no such check after the await). -/
def raceStep (s : RaceState) : Ev → RaceState
  | Ev.tickFire =>
      if s.intervalLive then { s with inFlight := s.inFlight + 1 } else s
  | Ev.stop => { s with intervalLive := false }
  | Ev.resolve r =>
      if s.inFlight = 0 then s
      else
        let t := tick s.lastRowCount r
        { intervalLive := s.intervalLive && t.active,
          inFlight := s.inFlight - 1,
          lastRowCount := t.lastRowCount,
          emitted := s.emitted ++ t.msgs }

/-- Run a sequence of race events. -/
def raceRun (s : RaceState) (es : List Ev) : RaceState :=
  es.foldl raceStep s

/-- setInterval fixed-rate semantics: invocation i of the callback fires at
time interval * (i + 1) after scheduling, independent of how long any
invocation of the async callback runs. -/
def fireTime (interval i : Nat) : Nat := interval * (i + 1)

/-- The time span occupied by read i: it starts when invocation i fires and
ends after its duration. -/
def readSpan (interval : Nat) (durations : List Nat) (i : Nat) : Nat × Nat :=
  (fireTime interval i, fireTime interval i + durations.getD i 0)

/-- Two half-open time spans overlap. -/
def spansOverlap (a b : Nat × Nat) : Bool :=
  decide (max a.1 b.1 < min a.2 b.2)

/-- Whether a socket.io message is a monitoring-error message. -/
def isErrorMsg : IoMsg → Bool
  | IoMsg.monitoringError _ => true
  | IoMsg.newLeads _ _ => false

/-! ## Basic lemmas about one tick -/

/-- A failed read: the callback emits one error and clears the interval,
leaving lastRowCount untouched. -/
theorem tick_failure (lrc : Int) :
    tick lrc none =
      ⟨lrc, [IoMsg.monitoringError "Lost connection to spreadsheet."], false⟩ := rfl

/-- A successful read never clears the interval. -/
theorem tick_some_active (lrc : Int) (rows : List Row) :
    (tick lrc (some rows)).active = true := by
  simp only [tick]
  split <;> rfl

/-- A successful read updates lastRowCount to the new count unconditionally. -/
theorem tick_some_lastRowCount (lrc : Int) (rows : List Row) :
    (tick lrc (some rows)).lastRowCount = (rows.length : Int) := by
  simp only [tick]
  split <;> rfl

/-- Slicing at a natural-number index is dropping that many rows. -/
theorem jsSlice_natCast (rows : List Row) (n : Nat) :
    jsSlice rows (n : Int) = rows.drop n := by
  simp [jsSlice]

/-- A tick with an established (natural-number) baseline: when the count grew,
exactly the rows past the old count are emitted with the new total; otherwise
nothing is emitted; the count is adopted either way. -/
theorem tick_success (n : Nat) (rows : List Row) :
    tick (n : Int) (some rows) =
      if n < rows.length then
        ⟨(rows.length : Int), [IoMsg.newLeads (rows.drop n) rows.length], true⟩
      else
        ⟨(rows.length : Int), [], true⟩ := by
  by_cases h : n < rows.length
  · simp only [tick, jsSlice_natCast, if_pos h]
    rw [if_pos]
    exact ⟨by omega, by omega⟩
  · simp only [tick, if_neg h]
    rw [if_neg]
    rintro ⟨-, h2⟩
    exact h (by omega)

/-- Running the interval over a block of successful reads emits exactly the
spec deltas for that block and then continues from the final count. -/
theorem runTicks_over_successes (n : Nat) (succ : List (List Row))
    (rest : List (Option (List Row))) :
    runTicks (n : Int) (succ.map some ++ rest) =
      ⟨specEmits n succ ++ (runTicks (finalCount n succ : Int) rest).msgs,
       (runTicks (finalCount n succ : Int) rest).lastRowCount,
       (runTicks (finalCount n succ : Int) rest).active⟩ := by
  induction succ generalizing n with
  | nil => simp [specEmits, finalCount]
  | cons rows tl ih =>
    simp only [List.map_cons, List.cons_append, runTicks, tick_success]
    by_cases h : n < rows.length
    · simp [if_pos h, specEmits, finalCount, ih]
    · simp [if_neg h, specEmits, finalCount, ih]

/-- The spec deltas over successful reads contain no error message. -/
theorem specEmits_countP_error (n : Nat) (succ : List (List Row)) :
    (specEmits n succ).countP isErrorMsg = 0 := by
  induction succ generalizing n with
  | nil => rfl
  | cons rows tl ih =>
    simp only [specEmits, List.countP_append, ih rows.length]
    split <;> simp [isErrorMsg, List.countP_cons]

/-! ## Claim theorems -/

/-- C1: for a session with an established baseline and a sequence of
successful reads whose row counts are non-decreasing, the rows emitted across
all new-leads messages are exactly the rows at indices at or past the count
observed at the previous successful read, one batch per tick in source order
with the new total, no duplicates and no omissions (specEmits emits each such
batch exactly once and nothing else); a tick whose count equals the previous
count emits nothing, as specEmits shows. -/
theorem new_leads_are_exact_delta (baseCount : Nat) (reads : List (List Row))
    (hmono : countsMono baseCount reads = true) :
    runTicks (baseCount : Int) (reads.map some) =
      ⟨specEmits baseCount reads, (finalCount baseCount reads : Int), true⟩ := by
  have h := runTicks_over_successes baseCount reads []
  simpa [runTicks] using h

/-- Witness for C1: baseline of 3 rows, tick reads 3 rows then 5 rows; the
only emission is rows 3 and 4 as one batch with total 5. -/
theorem new_leads_are_exact_delta_witness :
    countsMono 3 [[["a"], ["b"], ["c"]], [["a"], ["b"], ["c"], ["d"], ["e"]]] = true ∧
    runTicks ((3 : Nat) : Int)
        ([[["a"], ["b"], ["c"]], [["a"], ["b"], ["c"], ["d"], ["e"]]].map some) =
      ⟨[IoMsg.newLeads [["d"], ["e"]] 5], ((5 : Nat) : Int), true⟩ :=
  ⟨by decide,
   by
    rw [new_leads_are_exact_delta 3
      [[["a"], ["b"], ["c"]], [["a"], ["b"], ["c"], ["d"], ["e"]]] (by decide)]
    decide⟩

/-- C8: on every successful tick read, lastRowCount is updated to the returned
count unconditionally; when the count decreased, the smaller count is adopted
silently: no message is emitted and the interval stays live. -/
theorem lastRowCount_update_unconditional (lrc : Int) (rows : List Row) :
    (tick lrc (some rows)).lastRowCount = (rows.length : Int) ∧
    ((rows.length : Int) < lrc →
      (tick lrc (some rows)).msgs = [] ∧ (tick lrc (some rows)).active = true) := by
  refine ⟨tick_some_lastRowCount lrc rows, fun hdec => ?_⟩
  have hcond : ¬(lrc ≠ -1 ∧ (rows.length : Int) > lrc) := by
    rintro ⟨-, h2⟩
    omega
  simp only [tick, if_neg hcond]
  exact ⟨trivial, trivial⟩

/-- Witness for C8: a decrease from baseline 5 to 3 rows is adopted silently. -/
theorem lastRowCount_update_unconditional_witness :
    ((([["a"], ["b"], ["c"]] : List Row).length : Int) < 5) ∧
    (tick 5 (some [["a"], ["b"], ["c"]])).lastRowCount =
      (([["a"], ["b"], ["c"]] : List Row).length : Int) ∧
    (tick 5 (some [["a"], ["b"], ["c"]])).msgs = [] ∧
    (tick 5 (some [["a"], ["b"], ["c"]])).active = true :=
  ⟨by decide, (lastRowCount_update_unconditional 5 _).1,
   ((lastRowCount_update_unconditional 5 _).2 (by decide)).1,
   ((lastRowCount_update_unconditional 5 _).2 (by decide)).2⟩

/-- After a successful baseline (any natural starting count), every
lastRowCount value observed at entry to an executed tick is non-negative and
never the -1 sentinel. -/
theorem lrcTrace_nonneg (n : Nat) (reads : List (Option (List Row))) :
    ∀ x ∈ lrcTrace (n : Int) reads, 0 ≤ x ∧ x ≠ -1 := by
  induction reads generalizing n with
  | nil => simp [lrcTrace]
  | cons r rs ih =>
    intro x hx
    simp only [lrcTrace, List.mem_cons] at hx
    rcases hx with rfl | hx
    · exact ⟨Int.natCast_nonneg n, by omega⟩
    · cases r with
      | none => simp [tick_failure] at hx
      | some rows =>
        rw [tick_some_active, if_pos rfl, tick_some_lastRowCount] at hx
        exact ih rows.length x hx

/-- C10: once the baseline read succeeds, lastRowCount starts at the baseline
row count and stays a non-negative integer on every executed tick, never
returning to the -1 sentinel, so the tick guard lastRowCount not equal to -1
holds at every tick. -/
theorem sentinel_guard_always_holds (initialRows : List Row)
    (reads : List (Option (List Row))) (x : Int)
    (hx : x ∈ lrcTrace ((initialRows.length : Nat) : Int) reads) :
    0 ≤ x ∧ x ≠ -1 :=
  lrcTrace_nonneg initialRows.length reads x hx

/-- Witness for C10: a two-row baseline followed by a three-row read; the
lastRowCount observed at the tick is 2, non-negative and not -1. -/
theorem sentinel_guard_always_holds_witness :
    (2 : Int) ∈
        lrcTrace ((([["a"], ["b"]] : List Row).length : Int))
          [some [["a"], ["b"], ["c"]]] ∧
    (0 ≤ (2 : Int) ∧ (2 : Int) ≠ -1) :=
  ⟨by decide,
   sentinel_guard_always_holds [["a"], ["b"]] [some [["a"], ["b"], ["c"]]] 2 (by decide)⟩

/-- C6: a baseline read failure emits exactly one error message and never
creates the timer; a later tick read failure, after any block of successful
reads, emits the successful deltas followed by exactly one error message,
clears the interval, and never processes any further read (the reads listed
after the failure do not influence the outcome, so the failed read is never
retried). -/
theorem read_failure_is_terminal (sid : String) (hsid : sid ≠ "") (n : Nat)
    (succReads : List (List Row)) (rest : List (Option (List Row))) :
    ioStartMonitoring sid true none =
      ⟨1, [IoMsg.monitoringError
        "Failed to access spreadsheet. Check the ID and permissions."], -1, false⟩ ∧
    runTicks (n : Int) (succReads.map some ++ none :: rest) =
      ⟨specEmits n succReads ++
         [IoMsg.monitoringError "Lost connection to spreadsheet."],
       (finalCount n succReads : Int), false⟩ ∧
    ((runTicks (n : Int) (succReads.map some ++ none :: rest)).msgs.countP
      isErrorMsg) = 1 := by
  have hrun : runTicks (n : Int) (succReads.map some ++ none :: rest) =
      ⟨specEmits n succReads ++
         [IoMsg.monitoringError "Lost connection to spreadsheet."],
       (finalCount n succReads : Int), false⟩ := by
    rw [runTicks_over_successes]
    simp [runTicks, tick_failure]
  refine ⟨?_, hrun, ?_⟩
  · unfold ioStartMonitoring
    rw [if_neg (by simp [hsid])]
  · rw [hrun]
    simp [List.countP_append, specEmits_countP_error, isErrorMsg, List.countP_cons]

/-- Witness for C6: one successful grow tick then a failed read, with a
further read listed after the failure that is never processed. -/
theorem read_failure_is_terminal_witness :
    ("sheet1" : String) ≠ "" ∧
    (ioStartMonitoring "sheet1" true none =
      ⟨1, [IoMsg.monitoringError
        "Failed to access spreadsheet. Check the ID and permissions."], -1, false⟩ ∧
     runTicks ((1 : Nat) : Int)
         ([[["a"], ["b"]]].map some ++ none :: [some [["x"]]]) =
       ⟨specEmits 1 [[["a"], ["b"]]] ++
          [IoMsg.monitoringError "Lost connection to spreadsheet."],
        (finalCount 1 [[["a"], ["b"]]] : Int), false⟩ ∧
     ((runTicks ((1 : Nat) : Int)
         ([[["a"], ["b"]]].map some ++ none :: [some [["x"]]])).msgs.countP
       isErrorMsg) = 1) :=
  ⟨by decide,
   read_failure_is_terminal "sheet1" (by decide) 1 [[["a"], ["b"]]] [some [["x"]]]⟩

/-- C9: a reachable source with no rows reads as an empty row list, not a
failure: checkLeads turns an absent values field into the empty list, the
baseline succeeds with lastRowCount 0 and the timer is created, and every row
later appended is emitted as a new lead. -/
theorem empty_source_baseline_ok (sid : String) (hsid : sid ≠ "")
    (rows : List Row) (hrows : 0 < rows.length) :
    checkLeads (some none) = some [] ∧
    ioStartMonitoring sid true (checkLeads (some none)) =
      ⟨1, [], ((0 : Nat) : Int), true⟩ ∧
    runTicks ((0 : Nat) : Int) [some rows] =
      ⟨[IoMsg.newLeads rows rows.length], (rows.length : Int), true⟩ := by
  refine ⟨rfl, ?_, ?_⟩
  · unfold ioStartMonitoring
    rw [if_neg (by simp [hsid])]
    rfl
  · have h := runTicks_over_successes 0 [rows] []
    simp only [List.map_cons, List.map_nil, List.append_nil] at h
    rw [h]
    simp [specEmits, finalCount, runTicks, hrows]

/-- Witness for C9: an empty baseline, then one appended row is emitted. -/
theorem empty_source_baseline_ok_witness :
    ("sheet1" : String) ≠ "" ∧ 0 < ([["x"]] : List Row).length ∧
    (checkLeads (some none) = some [] ∧
     ioStartMonitoring "sheet1" true (checkLeads (some none)) =
       ⟨1, [], ((0 : Nat) : Int), true⟩ ∧
     runTicks ((0 : Nat) : Int) [some [["x"]]] =
       ⟨[IoMsg.newLeads [["x"]] ([["x"]] : List Row).length],
        (([["x"]] : List Row).length : Int), true⟩) :=
  ⟨by decide, by decide,
   empty_source_baseline_ok "sheet1" (by decide) [["x"]] (by decide)⟩

/-- C5 counterexample: in the ws variant (server.ts) the handler never checks
the spreadsheetId; with tokens present and an empty spreadsheetId the baseline
read is attempted, so the request is not rejected before a read occurs. -/
theorem ws_empty_sourceId_read_attempted :
    (wsStartMonitoring "" true none).readsAttempted = 1 ∧
    ¬(wsStartMonitoring "" true none).readsAttempted = 0 := by decide

/-- C5 amended: in the socket.io variant an empty spreadsheetId or absent
credentials is rejected before any read, with no timer created; the ws variant
(server.ts) rejects only absent credentials before any read, and with
credentials present an empty spreadsheetId still reaches the baseline read. -/
theorem start_guard_per_variant (sid : String) (tok : Bool)
    (b : Option (List Row)) :
    ((sid = "" ∨ tok = false) →
      ioStartMonitoring sid tok b = ⟨0, [], -1, false⟩) ∧
    (tok = false →
      wsStartMonitoring sid tok b =
        ⟨0, [WsMsg.error "Authentication required. Please log in again."],
         -1, false⟩) ∧
    (tok = true → (wsStartMonitoring "" tok b).readsAttempted = 1) := by
  refine ⟨fun h => ?_, fun h => ?_, fun h => ?_⟩
  · unfold ioStartMonitoring
    rw [if_pos h]
  · subst h
    rfl
  · subst h
    unfold wsStartMonitoring
    rw [if_neg (by simp)]
    cases b <;> rfl

/-- Witness for C5: the three guard behaviors at concrete inputs. -/
theorem start_guard_per_variant_witness :
    ioStartMonitoring "" true none = ⟨0, [], -1, false⟩ ∧
    wsStartMonitoring "sheet1" false none =
      ⟨0, [WsMsg.error "Authentication required. Please log in again."],
       -1, false⟩ ∧
    (wsStartMonitoring "" true none).readsAttempted = 1 :=
  ⟨(start_guard_per_variant "" true none).1 (Or.inl rfl),
   (start_guard_per_variant "sheet1" false none).2.1 rfl,
   (start_guard_per_variant "" true none).2.2 rfl⟩

/-- C7 counterexample: the new-leads message of the ws variant (server.ts)
carries only a type field and the leads batch; there is no total field. -/
theorem ws_new_leads_lacks_total :
    wsTick 1 (some [["a"], ["b"]]) = ⟨2, [WsMsg.newLeads [["b"]]], true⟩ ∧
    "total" ∉ (wsMsgFields (WsMsg.newLeads [["b"]])).map Prod.fst := by decide

/-- C7 amended: in the socket.io variant, every new-leads message emitted on a
tick carries both the batch of newly appended rows (the leads field) and the
new total row count (the total field, an integer); in the ws variant the
new-leads payload has no total field. -/
theorem new_leads_payload_per_variant (lrc : Int) (rows : List Row)
    (h0 : 0 ≤ lrc) (hlt : lrc < (rows.length : Int)) :
    (tick lrc (some rows)).msgs =
      [IoMsg.newLeads (jsSlice rows lrc) rows.length] ∧
    ("total", JVal.jnum (rows.length : Int)) ∈
      msgFields (IoMsg.newLeads (jsSlice rows lrc) rows.length) ∧
    ("leads", JVal.jrows (jsSlice rows lrc)) ∈
      msgFields (IoMsg.newLeads (jsSlice rows lrc) rows.length) ∧
    (∀ leads : List Row,
      "total" ∉ (wsMsgFields (WsMsg.newLeads leads)).map Prod.fst) := by
  have hc : lrc ≠ -1 ∧ (rows.length : Int) > lrc := ⟨by omega, by omega⟩
  refine ⟨?_, ?_, ?_, ?_⟩
  · simp [tick, if_pos hc]
  · simp [msgFields, ioNewLeadsFields]
  · simp [msgFields, ioNewLeadsFields]
  · intro leads
    simp only [wsMsgFields, List.map_cons, List.map_nil]
    decide

/-- Witness for C7: a grow tick from 1 to 3 rows; the socket.io message
carries leads and total 3; the ws payload lacks total. -/
theorem new_leads_payload_per_variant_witness :
    (0 ≤ (1 : Int) ∧ (1 : Int) < (([["a"], ["b"], ["c"]] : List Row).length : Int)) ∧
    ((tick 1 (some [["a"], ["b"], ["c"]])).msgs =
      [IoMsg.newLeads (jsSlice [["a"], ["b"], ["c"]] 1)
        ([["a"], ["b"], ["c"]] : List Row).length] ∧
     ("total", JVal.jnum ((([["a"], ["b"], ["c"]] : List Row).length : Nat) : Int)) ∈
       msgFields (IoMsg.newLeads (jsSlice [["a"], ["b"], ["c"]] 1)
         ([["a"], ["b"], ["c"]] : List Row).length) ∧
     ("leads", JVal.jrows (jsSlice [["a"], ["b"], ["c"]] 1)) ∈
       msgFields (IoMsg.newLeads (jsSlice [["a"], ["b"], ["c"]] 1)
         ([["a"], ["b"], ["c"]] : List Row).length) ∧
     (∀ leads : List Row,
       "total" ∉ (wsMsgFields (WsMsg.newLeads leads)).map Prod.fst)) :=
  ⟨⟨by decide, by decide⟩,
   new_leads_payload_per_variant 1 [["a"], ["b"], ["c"]] (by decide) (by decide)⟩

/-- C2: evaluation at the failing input. Two start-monitoring requests on one
socket for sources sheetA then sheetB: the second start overwrites the
activeMonitors entry without clearing the first interval, so the first
interval (handle 0, watching sheetA) is still live after the second start, it
still emits leads from sheetA when it fires, and even stop-monitoring clears
only the second interval, leaving the first orphaned. -/
theorem double_start_leaks_first_interval :
    (⟨0, "sheetA", 1⟩ : Monitor) ∈
        (regStart (regStart ⟨[], [], 0⟩ "sock" "sheetA" 1) "sock" "sheetB" 0).intervals ∧
    fireEmits (regStart (regStart ⟨[], [], 0⟩ "sock" "sheetA" 1) "sock" "sheetB" 0) 0
        [["a"], ["b"]] = [("sheetA", IoMsg.newLeads [["b"]] 2)] ∧
    (⟨0, "sheetA", 1⟩ : Monitor) ∈
        (regStop (regStart (regStart ⟨[], [], 0⟩ "sock" "sheetA" 1) "sock" "sheetB" 0)
          "sock").intervals := by
  decide

/-- C3 counterexample: interval fires and a read for two rows goes in flight,
then stop-monitoring runs clearInterval, then the read resolves: the callback
still emits the new-leads message after the cancellation took effect. -/
theorem stopped_session_still_emits :
    (raceRun ⟨true, 0, 1, []⟩
        [Ev.tickFire, Ev.stop, Ev.resolve (some [["a"], ["b"]])]).emitted =
      [IoMsg.newLeads [["b"]] 2] ∧
    (raceRun ⟨true, 0, 1, []⟩
        [Ev.tickFire, Ev.stop, Ev.resolve (some [["a"], ["b"]])]).emitted ≠ [] := by
  decide

/-- C3 amended: after stop or disconnect clears the interval, no new tick
fires and no new read starts; but the callback body performs no liveness
re-check after its read resolves, so a read already in flight still emits its
new-leads message when it resolves after the cancellation. -/
theorem cancellation_semantics (s : RaceState) (hs : s.intervalLive = false) :
    raceStep s Ev.tickFire = s ∧
    (∀ rows : List Row, 1 ≤ s.inFlight → 0 ≤ s.lastRowCount →
      s.lastRowCount < (rows.length : Int) →
      (raceStep s (Ev.resolve (some rows))).emitted =
        s.emitted ++ [IoMsg.newLeads (jsSlice rows s.lastRowCount) rows.length]) := by
  constructor
  · simp [raceStep, hs]
  · intro rows h1 h0 hlt
    have hc : s.lastRowCount ≠ -1 ∧ (rows.length : Int) > s.lastRowCount :=
      ⟨by omega, by omega⟩
    simp [raceStep, tick, if_pos hc, Nat.pos_iff_ne_zero.mp h1]

/-- Witness for C3 amended: a stopped session with one read in flight over
baseline 1; resolving with two rows still appends the new-leads message, and
tickFire does nothing. -/
theorem cancellation_semantics_witness :
    ((⟨false, 1, 1, []⟩ : RaceState).intervalLive = false) ∧
    (raceStep ⟨false, 1, 1, []⟩ Ev.tickFire = ⟨false, 1, 1, []⟩ ∧
     (raceStep (⟨false, 1, 1, []⟩ : RaceState)
         (Ev.resolve (some [["a"], ["b"]]))).emitted =
       ([] : List IoMsg) ++
         [IoMsg.newLeads (jsSlice [["a"], ["b"]] 1) ([["a"], ["b"]] : List Row).length]) :=
  ⟨rfl,
   (cancellation_semantics ⟨false, 1, 1, []⟩ rfl).1,
   (cancellation_semantics ⟨false, 1, 1, []⟩ rfl).2 [["a"], ["b"]]
     (by decide) (by decide) (by decide)⟩

/-- C4 counterexample: with the 5-second fixed-rate setInterval and two reads
each taking 7 time units, the second invocation fires at time 10 while the
first read is still in flight until time 12, and the two read spans overlap. -/
theorem setInterval_reads_overlap :
    fireTime 5 1 < (readSpan 5 [7, 7] 0).2 ∧
    spansOverlap (readSpan 5 [7, 7] 0) (readSpan 5 [7, 7] 1) = true := by
  decide

/-- C4 amended: the timer is a fixed-rate setInterval, not a recurring delay:
invocation i fires at interval * (i + 1) independent of read durations; when
every read finishes within the interval consecutive reads do not overlap, but
whenever a read outlasts the interval the next invocation fires before it
completes, and the two reads overlap in time whenever the next read takes any
time at all. -/
theorem fixed_rate_interval (interval : Nat) (durations : List Nat) (i : Nat) :
    (readSpan interval durations i).1 = interval * (i + 1) ∧
    (durations.getD i 0 ≤ interval →
      spansOverlap (readSpan interval durations i)
        (readSpan interval durations (i + 1)) = false) ∧
    (interval < durations.getD i 0 →
      fireTime interval (i + 1) < (readSpan interval durations i).2) ∧
    (interval < durations.getD i 0 → 0 < durations.getD (i + 1) 0 →
      spansOverlap (readSpan interval durations i)
        (readSpan interval durations (i + 1)) = true) := by
  refine ⟨rfl, ?_, ?_, ?_⟩ <;>
    · simp only [spansOverlap, readSpan, fireTime, decide_eq_false_iff_not,
        decide_eq_true_eq, mul_add_one, not_lt]
      intros
      omega

/-- Witness for C4 amended: at interval 5, reads of duration 3 do not overlap,
while a read of duration 7 is overrun by the next firing and overlaps it. -/
theorem fixed_rate_interval_witness :
    (readSpan 5 [7, 7] 0).1 = 5 * (0 + 1) ∧
    spansOverlap (readSpan 5 [3, 3] 0) (readSpan 5 [3, 3] 1) = false ∧
    fireTime 5 (0 + 1) < (readSpan 5 [7, 7] 0).2 ∧
    spansOverlap (readSpan 5 [7, 7] 0) (readSpan 5 [7, 7] 1) = true :=
  ⟨(fixed_rate_interval 5 [7, 7] 0).1,
   (fixed_rate_interval 5 [3, 3] 0).2.1 (by decide),
   (fixed_rate_interval 5 [7, 7] 0).2.2.1 (by decide),
   (fixed_rate_interval 5 [7, 7] 0).2.2.2 (by decide) (by decide)⟩

end LeadRing
